import Mathlib

/-!
Shallow embedding of the mini-ADAS activity pipeline
(`src/pullpiri_persistency/vstechdemo/demo25/feo/examples/rust/mini-adas/src/activities/components.rs`).

Floating-point values of the source are modelled as rationals (`ℚ`); the
pseudo-random draws produced by `RandomState::new().build_hasher().finish()`
are modelled as explicit natural-number oracle arguments, so every function
is a pure function of its state, its inputs and its draws.
-/

namespace MiniAdas

/-- Driving mode. The source stores it as the strings
"autonomous" / "manual" / "emergency"; no other string is ever assigned. -/
inductive DrivingMode where
  | autonomous
  | manual
  | emergency
deriving DecidableEq, Repr

/-- Message `CameraImage` (`messages.rs`): output of the `Camera` activity. -/
structure CameraImage where
  num_people : Nat
  num_cars : Nat
  distance_obstacle : ℚ
deriving DecidableEq, Repr

/-- Message `RadarScan` (`messages.rs`): output of the `Radar` activity. -/
structure RadarScan where
  distance_obstacle : ℚ
  error_margin : ℚ
deriving DecidableEq, Repr

/-- Message `Scene` (`messages.rs`): output of the `NeuralNet` fusion. -/
structure Scene where
  num_people : Nat
  num_cars : Nat
  distance_obstacle : ℚ
  distance_left_lane : ℚ
  distance_right_lane : ℚ
deriving DecidableEq, Repr

/-- Message `CarData` (`messages.rs`): the mode signal of the arbiter. -/
structure CarData where
  driving_mode : DrivingMode
deriving DecidableEq, Repr

/-- Rust `f64::clamp(lo, hi)`: if the value is below `lo` return `lo`,
above `hi` return `hi`, otherwise the value itself. -/
def rclamp (x lo hi : ℚ) : ℚ :=
  if x < lo then lo else if x > hi then hi else x

/-- Rust `usize::clamp(lo, hi)`. -/
def nclamp (x lo hi : Nat) : Nat :=
  if x < lo then lo else if x > hi then hi else x

/-- `gen_random_in_range(range)` of the source:
`rand % (range.end - range.start + 1) + range.start` where `rand` is a
non-negative hash value (modelled by the oracle argument `rand : Nat`). -/
def gen_random_in_range (lo hi : Int) (rand : Nat) : Int :=
  (rand : Int) % (hi - lo + 1) + lo

/-- Rust `as i64` conversion of an `f64`: truncation toward zero. -/
def i64_of_rat (q : ℚ) : Int :=
  if 0 ≤ q then ⌊q⌋ else ⌈q⌉

/-- `random_walk_float(previous, change_prop, max_delta)`: with the draw
`r1` deciding the change test (`gen_random_in_range(0..100) / 100 < change_prop`)
and the draw `r2` selecting the scaled perturbation. -/
def random_walk_float (previous change_prop max_delta : ℚ) (r1 r2 : Nat) : ℚ :=
  if ((gen_random_in_range 0 100 r1 : ℚ)) / 100 < change_prop then
    let scaled_max_delta : Int := i64_of_rat (max_delta * 1000)
    let scaled_delta : ℚ := (gen_random_in_range (-scaled_max_delta) scaled_max_delta r2 : ℚ)
    previous + scaled_delta / 1000
  else
    previous

/-- `random_walk_integer(previous, change_prop, max_delta)`:
`i64::max(0, previous as i64 + delta) as usize` on a change,
else `previous`. -/
def random_walk_integer (previous : Nat) (change_prop : ℚ) (max_delta : Nat)
    (r1 r2 : Nat) : Nat :=
  if ((gen_random_in_range 0 100 r1 : ℚ)) / 100 < change_prop then
    (max 0 ((previous : Int) + gen_random_in_range (-(max_delta : Int)) (max_delta : Int) r2)).toNat
  else
    previous

/-- The four values ever held by `Camera.current_scenario`
("highway", "city", "suburban", "emergency_test"). -/
inductive ScenarioKind where
  | highway
  | city
  | suburban
  | emergency_test
deriving DecidableEq, Repr

/-- State of the `Camera` activity (channel handles omitted). -/
structure Camera where
  num_people : Nat
  num_cars : Nat
  distance_obstacle : ℚ
  scenario_timer : Nat
  current_scenario : ScenarioKind
  scenario_duration : Nat
deriving DecidableEq, Repr

/-- Initial camera state from `Camera::build`. -/
def Camera.build : Camera :=
  { num_people := 2
    num_cars := 3
    distance_obstacle := 10
    scenario_timer := 0
    current_scenario := ScenarioKind.highway
    scenario_duration := 40 }

/-- The six pseudo-random draws one `Camera::get_image` invocation consumes
(one change-test draw and one delta draw per field). -/
structure CameraDraws where
  people_r1 : Nat
  people_r2 : Nat
  cars_r1 : Nat
  cars_r2 : Nat
  dist_r1 : Nat
  dist_r2 : Nat
deriving Repr

/-- First half of `Camera::get_image`: advance `scenario_timer` and, when it
reaches `scenario_duration`, rotate to the next scenario with its duration. -/
def Camera.advance (cam : Camera) : Camera :=
  let timer := cam.scenario_timer + 1
  if timer ≥ cam.scenario_duration then
    match cam.current_scenario with
    | ScenarioKind.highway =>
        { cam with scenario_timer := 0, current_scenario := ScenarioKind.city,
                   scenario_duration := 30 }
    | ScenarioKind.city =>
        { cam with scenario_timer := 0, current_scenario := ScenarioKind.suburban,
                   scenario_duration := 25 }
    | ScenarioKind.suburban =>
        { cam with scenario_timer := 0, current_scenario := ScenarioKind.emergency_test,
                   scenario_duration := 15 }
    | ScenarioKind.emergency_test =>
        { cam with scenario_timer := 0, current_scenario := ScenarioKind.highway,
                   scenario_duration := 40 }
  else
    { cam with scenario_timer := timer }

/-- Second half of `Camera::get_image`: per-scenario random-walk update of
the three fields, each clamped to the scenario's range. -/
def Camera.sample (cam : Camera) (d : CameraDraws) : Camera :=
  match cam.current_scenario with
  | ScenarioKind.highway =>
      { cam with
        num_people :=
          nclamp (random_walk_integer cam.num_people (3/10) 1 d.people_r1 d.people_r2) 0 3
        num_cars :=
          nclamp (random_walk_integer cam.num_cars (7/10) 2 d.cars_r1 d.cars_r2) 2 8
        distance_obstacle :=
          rclamp (random_walk_float cam.distance_obstacle (8/10) 8 d.dist_r1 d.dist_r2) 4 25 }
  | ScenarioKind.city =>
      { cam with
        num_people :=
          nclamp (random_walk_integer cam.num_people (9/10) 3 d.people_r1 d.people_r2) 3 9
        num_cars :=
          nclamp (random_walk_integer cam.num_cars (9/10) 3 d.cars_r1 d.cars_r2) 4 10
        distance_obstacle :=
          rclamp (random_walk_float cam.distance_obstacle 1 6 d.dist_r1 d.dist_r2) 3 12 }
  | ScenarioKind.suburban =>
      { cam with
        num_people :=
          nclamp (random_walk_integer cam.num_people (6/10) 2 d.people_r1 d.people_r2) 2 6
        num_cars :=
          nclamp (random_walk_integer cam.num_cars (6/10) 2 d.cars_r1 d.cars_r2) 3 7
        distance_obstacle :=
          rclamp (random_walk_float cam.distance_obstacle (7/10) 4 d.dist_r1 d.dist_r2) 4 18 }
  | ScenarioKind.emergency_test =>
      { cam with
        num_people :=
          nclamp (random_walk_integer cam.num_people (4/10) 1 d.people_r1 d.people_r2) 0 3
        num_cars :=
          nclamp (random_walk_integer cam.num_cars (4/10) 1 d.cars_r1 d.cars_r2) 1 4
        distance_obstacle :=
          rclamp (random_walk_float cam.distance_obstacle 1 2 d.dist_r1 d.dist_r2) (3/2) 5 }

/-- `Camera::get_image`: scenario bookkeeping, per-scenario field update,
and the emitted `CameraImage` built from the updated fields. -/
def Camera.get_image (cam : Camera) (d : CameraDraws) : Camera × CameraImage :=
  let cam := (cam.advance).sample d
  (cam, { num_people := cam.num_people, num_cars := cam.num_cars,
          distance_obstacle := cam.distance_obstacle })

/-- Repeated `Camera::get_image` invocations, one per element of the draw list. -/
def runCamera (cam : Camera) : List CameraDraws → Camera
  | [] => cam
  | d :: ds => runCamera (Camera.get_image cam d).1 ds

/-- The per-scenario clamp ranges of `Camera::get_image`, as a predicate on
the camera state after an update. -/
def cameraFieldsInRange (cam : Camera) : Prop :=
  match cam.current_scenario with
  | ScenarioKind.highway =>
      cam.num_people ≤ 3 ∧ 2 ≤ cam.num_cars ∧ cam.num_cars ≤ 8 ∧
      4 ≤ cam.distance_obstacle ∧ cam.distance_obstacle ≤ 25
  | ScenarioKind.city =>
      3 ≤ cam.num_people ∧ cam.num_people ≤ 9 ∧ 4 ≤ cam.num_cars ∧ cam.num_cars ≤ 10 ∧
      3 ≤ cam.distance_obstacle ∧ cam.distance_obstacle ≤ 12
  | ScenarioKind.suburban =>
      2 ≤ cam.num_people ∧ cam.num_people ≤ 6 ∧ 3 ≤ cam.num_cars ∧ cam.num_cars ≤ 7 ∧
      4 ≤ cam.distance_obstacle ∧ cam.distance_obstacle ≤ 18
  | ScenarioKind.emergency_test =>
      cam.num_people ≤ 3 ∧ 1 ≤ cam.num_cars ∧ cam.num_cars ≤ 4 ∧
      (3/2 : ℚ) ≤ cam.distance_obstacle ∧ cam.distance_obstacle ≤ 5

/-- `NeuralNet::infer`: fused scene from a camera image and a radar scan;
`r1` and `r2` are the fresh lane-distance draws of this invocation. -/
def NeuralNet.infer (image : CameraImage) (radar : RadarScan) (r1 r2 : Nat) : Scene :=
  { num_people := image.num_people
    num_cars := image.num_cars
    distance_obstacle := min image.distance_obstacle radar.distance_obstacle
    distance_left_lane := (gen_random_in_range 5 10 r1 : ℚ) / 10
    distance_right_lane := (gen_random_in_range 5 10 r2 : ℚ) / 10 }

/-- `NeuralNet::step`: produce a scene only when both inputs are available. -/
def NeuralNet.step (image : Option CameraImage) (scan : Option RadarScan)
    (r1 r2 : Nat) : Option Scene :=
  match image, scan with
  | some camera, some radar => some (NeuralNet.infer camera radar r1 r2)
  | _, _ => none

/-- State of the `CarModeCalculator` activity (channel handles omitted;
`last_mode_change_time` instants and the cooldown duration are modelled as
rational numbers of seconds). -/
structure CarModeCalculator where
  current_mode : DrivingMode
  previous_published_mode : Option DrivingMode
  last_mode_change_time : Option ℚ
  obstacle_threshold : ℚ
  emergency_threshold : ℚ
  current_speed : ℚ
  target_speed : ℚ
  steering_angle : ℚ
  brake_force : ℚ
  mode_change_cooldown : ℚ
deriving DecidableEq, Repr

/-- Initial arbiter state from `CarModeCalculator::build`
(the empty string `previous_published_mode` becomes `none`). -/
def CarModeCalculator.build : CarModeCalculator :=
  { current_mode := DrivingMode.manual
    previous_published_mode := none
    last_mode_change_time := none
    obstacle_threshold := 6
    emergency_threshold := 4
    current_speed := 50
    target_speed := 50
    steering_angle := 0
    brake_force := 0
    mode_change_cooldown := 15 }

/-- The pseudo-random draws one `CarModeCalculator::step` invocation may
consume: two random walks inside `update_vehicle_behavior` (target speed and
brake force) and one inside `adjust_vehicle_dynamics` (steering). -/
structure ArbiterDraws where
  target_r1 : Nat
  target_r2 : Nat
  brake_r1 : Nat
  brake_r2 : Nat
  steer_r1 : Nat
  steer_r2 : Nat
deriving Repr

/-- The `potential_new_mode` computation of `CarModeCalculator::step`:
emergency first, then the three manual conditions, else autonomous. -/
def candidateMode (c : CarModeCalculator) (scene : Scene) : DrivingMode :=
  if scene.distance_obstacle < c.emergency_threshold then
    DrivingMode.emergency
  else if scene.distance_obstacle < c.obstacle_threshold
          ∨ scene.num_people > 4 ∨ scene.num_cars > 5 then
    DrivingMode.manual
  else
    DrivingMode.autonomous

/-- The `can_change_mode` computation of `CarModeCalculator::step`:
emergency bypasses the cooldown; otherwise the elapsed time since the last
change must reach the cooldown; with no previous change, allow. -/
def canChangeMode (c : CarModeCalculator) (potential_new_mode : DrivingMode)
    (now : ℚ) : Bool :=
  if potential_new_mode = DrivingMode.emergency then
    true
  else
    match c.last_mode_change_time with
    | some last_change => decide (now - last_change ≥ c.mode_change_cooldown)
    | none => true

/-- `CarModeCalculator::update_vehicle_behavior`: set the dynamics targets
for the newly entered mode. -/
def update_vehicle_behavior (c : CarModeCalculator) (mode : DrivingMode)
    (scene : Scene) (d : ArbiterDraws) : CarModeCalculator :=
  match mode with
  | DrivingMode.emergency =>
      { c with target_speed := max (c.current_speed * (3/10)) 10
               brake_force := 80 }
  | DrivingMode.manual =>
      let target0 :=
        if scene.distance_obstacle < 10 then
          30 + scene.distance_obstacle * 3
        else
          40 + random_walk_float 0 (3/10) 15 d.target_r1 d.target_r2
      { c with target_speed := rclamp target0 25 70
               brake_force :=
                 rclamp (random_walk_float 0 (2/10) 20 d.brake_r1 d.brake_r2) 0 40 }
  | DrivingMode.autonomous =>
      let base_speed : ℚ := 65
      { c with target_speed :=
                 rclamp (base_speed + random_walk_float 0 (1/10) 5 d.target_r1 d.target_r2) 60 75
               brake_force :=
                 rclamp (random_walk_float 0 (1/10) 5 d.brake_r1 d.brake_r2) 0 15 }

/-- `CarModeCalculator::adjust_vehicle_dynamics`: move the speed one tenth of
the way toward the target, clamp to [5,120]; random-walk the steering angle,
clamp to [-10,10]. -/
def adjust_vehicle_dynamics (c : CarModeCalculator) (r1 r2 : Nat) : CarModeCalculator :=
  let speed_diff := c.target_speed - c.current_speed
  let new_speed := c.current_speed + speed_diff * (1/10)
  { c with current_speed := rclamp new_speed 5 120
           steering_angle :=
             rclamp (random_walk_float c.steering_angle (1/10) 2 r1 r2) (-10) 10 }

/-- `CarModeCalculator::step`: with no scene, nothing happens and nothing is
emitted; with a scene, apply the guarded mode transition, adjust dynamics,
refresh the logging bookkeeping and always emit `CarData` with the (possibly
updated) current mode. Returns the new state and the emitted record. -/
def CarModeCalculator.step (c : CarModeCalculator) (scene : Option Scene)
    (now : ℚ) (d : ArbiterDraws) : CarModeCalculator × Option CarData :=
  match scene with
  | none => (c, none)
  | some scene =>
    let potential_new_mode := candidateMode c scene
    let can_change_mode := canChangeMode c potential_new_mode now
    let should_change_mode :=
      decide (potential_new_mode ≠ c.current_mode) && can_change_mode
    let c1 :=
      if should_change_mode then
        let changed := { c with current_mode := potential_new_mode,
                                last_mode_change_time := some now }
        update_vehicle_behavior changed potential_new_mode scene d
      else
        c
    let c2 := adjust_vehicle_dynamics c1 d.steer_r1 d.steer_r2
    let c3 :=
      if some c2.current_mode ≠ c2.previous_published_mode then
        { c2 with previous_published_mode := some c2.current_mode }
      else
        c2
    (c3, some { driving_mode := c3.current_mode })

/-- Repeated `adjust_vehicle_dynamics` invocations, one per draw pair. -/
def runDynamics (c : CarModeCalculator) : List (Nat × Nat) → CarModeCalculator
  | [] => c
  | r :: rs => runDynamics (adjust_vehicle_dynamics c r.1 r.2) rs

/-- Transition guard in the words of the spec: the candidate may replace the
current mode only if it is Emergency, or no change has happened yet, or the
cooldown has elapsed since the last change. -/
def guardSpec (c : CarModeCalculator) (candidate : DrivingMode) (now : ℚ) : Prop :=
  candidate = DrivingMode.emergency
  ∨ c.last_mode_change_time = none
  ∨ (∃ last_change, c.last_mode_change_time = some last_change
        ∧ now - last_change ≥ c.mode_change_cooldown)

/-- State of the `CarDataPublisher` activity (channel handles, DDS writer and
participant omitted; the writer is modelled as present, with the outcome of
`writer.write` passed in as the boolean `writeOk`). -/
structure CarDataPublisher where
  last_published_mode : Option DrivingMode
deriving DecidableEq, Repr

/-- `CarDataPublisher::step`: when input is available, publish externally only
if the read mode differs from the last published one (or nothing was published
yet); both the success and the failure arm of the write record the mode in
`last_published_mode`. Returns the new state and whether a publish was
attempted. -/
def CarDataPublisher.step (p : CarDataPublisher) (input : Option CarData)
    (writeOk : Bool) : CarDataPublisher × Bool :=
  match input with
  | none => (p, false)
  | some car_data =>
    let should_publish :=
      match p.last_published_mode with
      | some last_mode => decide (last_mode ≠ car_data.driving_mode)
      | none => true
    if should_publish then
      match writeOk with
      | true => ({ last_published_mode := some car_data.driving_mode }, true)
      | false => ({ last_published_mode := some car_data.driving_mode }, true)
    else
      (p, false)

/-- Repeated `CarDataPublisher::step` invocations on a sequence of available
`CarData` inputs (writes succeeding), counting the attempted publishes. -/
def runPublisher (p : CarDataPublisher) : List CarData → CarDataPublisher × Nat
  | [] => (p, 0)
  | cd :: rest =>
    let this_step := CarDataPublisher.step p (some cd) true
    let remaining := runPublisher this_step.1 rest
    (remaining.1, (if this_step.2 then 1 else 0) + remaining.2)

/-- Mode-activity decision of `EmergencyModePublisher::step`: prefer the
`CarData` mode; when unavailable, recompute from the scene
(`distance_obstacle < 4.0`); with neither input, inactive. -/
def EmergencyModePublisher.is_emergency_mode (car_data : Option CarData)
    (scene : Option Scene) : Bool :=
  match car_data with
  | some car_data => decide (car_data.driving_mode = DrivingMode.emergency)
  | none =>
    match scene with
    | some scene => decide (scene.distance_obstacle < 4)
    | none => false

/-- Mode-activity decision of `ManualModePublisher::step`: prefer the
`CarData` mode; when unavailable, recompute from the scene
(not emergency, and one of the three manual conditions). -/
def ManualModePublisher.is_manual_mode (car_data : Option CarData)
    (scene : Option Scene) : Bool :=
  match car_data with
  | some car_data => decide (car_data.driving_mode = DrivingMode.manual)
  | none =>
    match scene with
    | some scene =>
      let emergency_cond := decide (scene.distance_obstacle < 4)
      let manual_cond :=
        decide (scene.distance_obstacle < 6 ∨ scene.num_people > 4 ∨ scene.num_cars > 5)
      !emergency_cond && manual_cond
    | none => false

/-- Mode-activity decision of `AutonomousModePublisher::step`: prefer the
`CarData` mode; when unavailable, recompute from the scene
(neither emergency nor any manual condition). -/
def AutonomousModePublisher.is_autonomous_mode (car_data : Option CarData)
    (scene : Option Scene) : Bool :=
  match car_data with
  | some car_data => decide (car_data.driving_mode = DrivingMode.autonomous)
  | none =>
    match scene with
    | some scene =>
      let emergency_cond := decide (scene.distance_obstacle < 4)
      let manual_cond :=
        decide (scene.distance_obstacle < 6 ∨ scene.num_people > 4 ∨ scene.num_cars > 5)
      !emergency_cond && !manual_cond
    | none => false

lemma rclamp_mem (x lo hi : ℚ) (h : lo ≤ hi) :
    lo ≤ rclamp x lo hi ∧ rclamp x lo hi ≤ hi := by
  unfold rclamp
  split_ifs with h1 h2
  · exact ⟨le_refl lo, h⟩
  · exact ⟨h, le_refl hi⟩
  · exact ⟨le_of_not_lt h1, le_of_not_lt h2⟩

lemma rclamp_eq_of_mem (x lo hi : ℚ) (h1 : lo ≤ x) (h2 : x ≤ hi) :
    rclamp x lo hi = x := by
  unfold rclamp
  split_ifs with a b
  · linarith
  · linarith
  · rfl

lemma nclamp_mem (x lo hi : Nat) (h : lo ≤ hi) :
    lo ≤ nclamp x lo hi ∧ nclamp x lo hi ≤ hi := by
  unfold nclamp
  split_ifs <;> omega

lemma gen_random_in_range_mem (lo hi : Int) (r : Nat) (h : lo ≤ hi) :
    lo ≤ gen_random_in_range lo hi r ∧ gen_random_in_range lo hi r ≤ hi := by
  unfold gen_random_in_range
  have h1 : 0 ≤ (r : Int) % (hi - lo + 1) := Int.emod_nonneg _ (by omega)
  have h2 : (r : Int) % (hi - lo + 1) < hi - lo + 1 := Int.emod_lt_of_pos _ (by omega)
  omega

/-- Claim C1: the candidate mode of `CarModeCalculator::step` is computed with
Emergency-first priority — Emergency below 4 m, else Manual below 6 m or with
more than 4 people or more than 5 cars, else Autonomous; in particular a clear
scene at 40 m yields Autonomous, 3 m yields Emergency for all other fields, and
8 m with 6 cars yields Manual. -/
theorem candidateMode_emergency_first_priority :
    (∀ (c : CarModeCalculator) (scene : Scene),
       c.emergency_threshold = 4 → c.obstacle_threshold = 6 →
       ((candidateMode c scene = DrivingMode.emergency ↔ scene.distance_obstacle < 4)
        ∧ (candidateMode c scene = DrivingMode.manual ↔
             (¬ scene.distance_obstacle < 4
              ∧ (scene.distance_obstacle < 6 ∨ scene.num_people > 4 ∨ scene.num_cars > 5)))
        ∧ (candidateMode c scene = DrivingMode.autonomous ↔
             (¬ scene.distance_obstacle < 4
              ∧ ¬(scene.distance_obstacle < 6 ∨ scene.num_people > 4 ∨ scene.num_cars > 5)))))
    ∧ (∀ l r : ℚ,
         candidateMode CarModeCalculator.build ⟨0, 0, 40, l, r⟩ = DrivingMode.autonomous)
    ∧ (∀ (p c : Nat) (l r : ℚ),
         candidateMode CarModeCalculator.build ⟨p, c, 3, l, r⟩ = DrivingMode.emergency)
    ∧ (∀ (p : Nat) (l r : ℚ),
         candidateMode CarModeCalculator.build ⟨p, 6, 8, l, r⟩ = DrivingMode.manual) := by
  refine ⟨?_, ?_, ?_, ?_⟩
  · intro c scene h1 h2
    unfold candidateMode
    rw [h1, h2]
    refine ⟨?_, ?_, ?_⟩ <;> split_ifs with ha hb <;> simp_all
  · intro l r
    simp [candidateMode, CarModeCalculator.build]
    norm_num
  · intro p c l r
    simp [candidateMode, CarModeCalculator.build]
    norm_num
  · intro p l r
    simp [candidateMode, CarModeCalculator.build]
    norm_num

/-- Witness for Claim C1 at the concrete clear-road scene. -/
theorem candidateMode_emergency_first_priority_witness :
    candidateMode CarModeCalculator.build ⟨0, 0, 40, 1, 1⟩ = DrivingMode.autonomous :=
  (candidateMode_emergency_first_priority.1 CarModeCalculator.build
      ⟨0, 0, 40, 1, 1⟩ rfl rfl).2.2.mpr (by norm_num)

/-- Claim C3: whenever a scene is available, `CarModeCalculator::step` emits a
`CarData` record carrying the arbiter's (possibly updated) current mode — the
emission is unconditional, also while a candidate change is suppressed by the
cooldown or while the mode is unchanged. -/
theorem carMode_always_emits_carData :
    ∀ (c : CarModeCalculator) (scene : Scene) (now : ℚ) (d : ArbiterDraws),
      (CarModeCalculator.step c (some scene) now d).2
        = some { driving_mode := (CarModeCalculator.step c (some scene) now d).1.current_mode } := by
  intro c scene now d
  rfl

/-- Claim C5: with no `CarData` available but a scene present, each telemetry
publisher recomputes its activity by the simplified non-hysteretic rule
(emergency below 4 m; manual when not emergency and below 6 m or crowded;
autonomous otherwise); in particular a 2 m scene marks emergency active
without any `CarData` read. -/
theorem fallback_mode_decision_from_scene :
    ∀ (scene : Scene),
      (EmergencyModePublisher.is_emergency_mode none (some scene) = true
         ↔ scene.distance_obstacle < 4)
      ∧ (ManualModePublisher.is_manual_mode none (some scene) = true
         ↔ (¬ scene.distance_obstacle < 4
             ∧ (scene.distance_obstacle < 6 ∨ scene.num_people > 4 ∨ scene.num_cars > 5)))
      ∧ (AutonomousModePublisher.is_autonomous_mode none (some scene) = true
         ↔ (¬ scene.distance_obstacle < 4
             ∧ ¬(scene.distance_obstacle < 6 ∨ scene.num_people > 4 ∨ scene.num_cars > 5)))
      ∧ (∀ (p c : Nat) (l r : ℚ),
           EmergencyModePublisher.is_emergency_mode none (some ⟨p, c, 2, l, r⟩) = true) := by
  intro scene
  refine ⟨?_, ?_, ?_, ?_⟩
  · simp [EmergencyModePublisher.is_emergency_mode]
  · simp [ManualModePublisher.is_manual_mode]
  · simp [AutonomousModePublisher.is_autonomous_mode]
  · intro p c l r
    simp [EmergencyModePublisher.is_emergency_mode]
    norm_num

/-- Claim C10: `gen_random_in_range(lo..hi)` takes values in the inclusive
range `[lo, hi]` and attains the nominally exclusive `hi`; consequently, on
the change-test draw equal to 100, `random_walk_float` and
`random_walk_integer` return the previous value unchanged even when the
change probability is 1.0. -/
theorem gen_random_in_range_inclusive_upper :
    (∀ (lo hi : Int) (r : Nat), lo ≤ hi →
       lo ≤ gen_random_in_range lo hi r ∧ gen_random_in_range lo hi r ≤ hi)
    ∧ (∀ (lo hi : Int), lo ≤ hi → ∃ r : Nat, gen_random_in_range lo hi r = hi)
    ∧ (∀ (previous max_delta : ℚ) (r2 : Nat),
         random_walk_float previous 1 max_delta 100 r2 = previous)
    ∧ (∀ (previous max_delta r2 : Nat),
         random_walk_integer previous 1 max_delta 100 r2 = previous) := by
  have hg : gen_random_in_range 0 100 100 = 100 := by decide
  refine ⟨gen_random_in_range_mem, ?_, ?_, ?_⟩
  · intro lo hi h
    refine ⟨(hi - lo).toNat, ?_⟩
    unfold gen_random_in_range
    rw [Int.toNat_of_nonneg (by omega), Int.emod_eq_of_lt (by omega) (by omega)]
    omega
  · intro previous max_delta r2
    unfold random_walk_float
    rw [hg]
    rw [if_neg (by norm_num)]
  · intro previous max_delta r2
    unfold random_walk_integer
    rw [hg]
    rw [if_neg (by norm_num)]

/-- Witness for Claim C10 at the concrete range `0..100` and draw 100. -/
theorem gen_random_in_range_inclusive_upper_witness :
    (0 : Int) ≤ gen_random_in_range 0 100 100 ∧ gen_random_in_range 0 100 100 ≤ 100 :=
  gen_random_in_range_inclusive_upper.1 0 100 100 (by norm_num)

/-- Claim C8: `NeuralNet` fusion takes the minimum of the two obstacle
distances, passes the camera counts through unchanged, freshly samples each
lane distance in [0.5, 1.0] depending only on its own draw of this step, and
produces no scene when either input is unavailable. -/
theorem neuralNet_fusion_scene :
    ∀ (image : CameraImage) (radar : RadarScan) (r1 r2 : Nat),
      NeuralNet.step (some image) (some radar) r1 r2
        = some (NeuralNet.infer image radar r1 r2)
      ∧ (NeuralNet.infer image radar r1 r2).distance_obstacle
          = min image.distance_obstacle radar.distance_obstacle
      ∧ (NeuralNet.infer image radar r1 r2).num_people = image.num_people
      ∧ (NeuralNet.infer image radar r1 r2).num_cars = image.num_cars
      ∧ ((1/2 : ℚ) ≤ (NeuralNet.infer image radar r1 r2).distance_left_lane
          ∧ (NeuralNet.infer image radar r1 r2).distance_left_lane ≤ 1)
      ∧ ((1/2 : ℚ) ≤ (NeuralNet.infer image radar r1 r2).distance_right_lane
          ∧ (NeuralNet.infer image radar r1 r2).distance_right_lane ≤ 1)
      ∧ (∀ (image2 : CameraImage) (radar2 : RadarScan) (r2b : Nat),
           (NeuralNet.infer image radar r1 r2).distance_left_lane
             = (NeuralNet.infer image2 radar2 r1 r2b).distance_left_lane)
      ∧ (∀ (image2 : CameraImage) (radar2 : RadarScan) (r1b : Nat),
           (NeuralNet.infer image radar r1 r2).distance_right_lane
             = (NeuralNet.infer image2 radar2 r1b r2).distance_right_lane)
      ∧ (∀ scan : Option RadarScan, NeuralNet.step none scan r1 r2 = none)
      ∧ (∀ img : Option CameraImage, NeuralNet.step img none r1 r2 = none) := by
  intro image radar r1 r2
  have lane_bounds : ∀ r : Nat,
      (1/2 : ℚ) ≤ (gen_random_in_range 5 10 r : ℚ) / 10
      ∧ (gen_random_in_range 5 10 r : ℚ) / 10 ≤ 1 := by
    intro r
    obtain ⟨hl, hu⟩ := gen_random_in_range_mem 5 10 r (by norm_num)
    have hl' : (5 : ℚ) ≤ (gen_random_in_range 5 10 r : ℚ) := by exact_mod_cast hl
    have hu' : (gen_random_in_range 5 10 r : ℚ) ≤ 10 := by exact_mod_cast hu
    constructor <;> [linarith; linarith]
  refine ⟨rfl, rfl, rfl, rfl, lane_bounds r1, lane_bounds r2,
          fun _ _ _ => rfl, fun _ _ _ => rfl, ?_, ?_⟩
  · intro scan
    cases scan <;> rfl
  · intro img
    cases img <;> rfl

/-- Claim C4: `CarDataPublisher::step` attempts an external publish exactly
when the read mode differs from `last_published_mode` (or nothing was
published yet), afterwards recording the read mode; over the mode sequence
[A,A,A,B,B,A] exactly 3 publishes occur. -/
theorem carDataForwarder_publish_on_change :
    (∀ (p : CarDataPublisher) (cd : CarData) (writeOk : Bool),
       ((CarDataPublisher.step p (some cd) writeOk).2 = true
          ↔ p.last_published_mode ≠ some cd.driving_mode)
       ∧ ((CarDataPublisher.step p (some cd) writeOk).2 = true →
            (CarDataPublisher.step p (some cd) writeOk).1.last_published_mode
              = some cd.driving_mode)
       ∧ ((CarDataPublisher.step p (some cd) writeOk).2 = false →
            (CarDataPublisher.step p (some cd) writeOk).1 = p))
    ∧ (∀ A B : DrivingMode, A ≠ B →
         (runPublisher ⟨none⟩ [⟨A⟩, ⟨A⟩, ⟨A⟩, ⟨B⟩, ⟨B⟩, ⟨A⟩]).2 = 3) := by
  constructor
  · intro p cd writeOk
    rcases p with ⟨lm⟩
    cases lm with
    | none => cases writeOk <;> simp [CarDataPublisher.step]
    | some last_mode =>
      by_cases h : last_mode = cd.driving_mode
      · subst h
        cases writeOk <;> simp [CarDataPublisher.step]
      · cases writeOk <;> simp [CarDataPublisher.step, h]
  · intro A B h
    simp [runPublisher, CarDataPublisher.step, h, Ne.symm h]

/-- Witness for Claim C4 at a concrete mode sequence. -/
theorem carDataForwarder_publish_on_change_witness :
    (runPublisher ⟨none⟩
        [⟨DrivingMode.autonomous⟩, ⟨DrivingMode.autonomous⟩, ⟨DrivingMode.autonomous⟩,
         ⟨DrivingMode.manual⟩, ⟨DrivingMode.manual⟩, ⟨DrivingMode.autonomous⟩]).2 = 3 :=
  carDataForwarder_publish_on_change.2 DrivingMode.autonomous DrivingMode.manual (by decide)

/-- Claim C9: in a `CarDataPublisher::step` that attempts an external publish,
`last_published_mode` is updated to the read mode regardless of whether the
write succeeds; a failed write produces exactly the same state and outcome as
a successful one and is never propagated as an error. -/
theorem carDataForwarder_write_failure_nonfatal :
    ∀ (p : CarDataPublisher) (cd : CarData) (writeOk : Bool),
      CarDataPublisher.step p (some cd) writeOk = CarDataPublisher.step p (some cd) true
      ∧ ((CarDataPublisher.step p (some cd) writeOk).2 = true →
           (CarDataPublisher.step p (some cd) writeOk).1.last_published_mode
             = some cd.driving_mode) := by
  intro p cd writeOk
  constructor
  · cases writeOk <;> rfl
  · rcases p with ⟨lm⟩
    cases lm with
    | none => cases writeOk <;> simp [CarDataPublisher.step]
    | some last_mode =>
      by_cases h : last_mode = cd.driving_mode
      · subst h
        cases writeOk <;> simp [CarDataPublisher.step]
      · cases writeOk <;> simp [CarDataPublisher.step, h]

/-- Witness for Claim C9 at a concrete failed write. -/
theorem carDataForwarder_write_failure_nonfatal_witness :
    CarDataPublisher.step ⟨none⟩ (some ⟨DrivingMode.manual⟩) false
      = CarDataPublisher.step ⟨none⟩ (some ⟨DrivingMode.manual⟩) true
    ∧ (CarDataPublisher.step ⟨none⟩ (some ⟨DrivingMode.manual⟩) false).1.last_published_mode
        = some DrivingMode.manual :=
  ⟨(carDataForwarder_write_failure_nonfatal ⟨none⟩ ⟨DrivingMode.manual⟩ false).1,
   (carDataForwarder_write_failure_nonfatal ⟨none⟩ ⟨DrivingMode.manual⟩ false).2 (by decide)⟩

lemma camera_sample_in_range (cam : Camera) (d : CameraDraws) :
    cameraFieldsInRange (Camera.sample cam d) := by
  rcases cam with ⟨p, c, dist, t, sc, dur⟩
  cases sc with
  | highway =>
    refine ⟨(nclamp_mem _ 0 3 (by norm_num)).2, (nclamp_mem _ 2 8 (by norm_num)).1,
            (nclamp_mem _ 2 8 (by norm_num)).2, (rclamp_mem _ 4 25 (by norm_num)).1,
            (rclamp_mem _ 4 25 (by norm_num)).2⟩
  | city =>
    refine ⟨(nclamp_mem _ 3 9 (by norm_num)).1, (nclamp_mem _ 3 9 (by norm_num)).2,
            (nclamp_mem _ 4 10 (by norm_num)).1, (nclamp_mem _ 4 10 (by norm_num)).2,
            (rclamp_mem _ 3 12 (by norm_num)).1, (rclamp_mem _ 3 12 (by norm_num)).2⟩
  | suburban =>
    refine ⟨(nclamp_mem _ 2 6 (by norm_num)).1, (nclamp_mem _ 2 6 (by norm_num)).2,
            (nclamp_mem _ 3 7 (by norm_num)).1, (nclamp_mem _ 3 7 (by norm_num)).2,
            (rclamp_mem _ 4 18 (by norm_num)).1, (rclamp_mem _ 4 18 (by norm_num)).2⟩
  | emergency_test =>
    refine ⟨(nclamp_mem _ 0 3 (by norm_num)).2, (nclamp_mem _ 1 4 (by norm_num)).1,
            (nclamp_mem _ 1 4 (by norm_num)).2, (rclamp_mem _ (3/2) 5 (by norm_num)).1,
            (rclamp_mem _ (3/2) 5 (by norm_num)).2⟩

/-- Claim C7: after any number of prior `Camera::get_image` invocations
(10,000 in particular), the next invocation leaves every camera field inside
the clamp range of the then-active scenario, whatever perturbations the
random-walk draws produce. -/
theorem camera_fields_within_scenario_range :
    ∀ (cam : Camera) (ds : List CameraDraws) (d : CameraDraws),
      cameraFieldsInRange (Camera.get_image (runCamera cam ds) d).1 := by
  intro cam ds d
  exact camera_sample_in_range (runCamera cam ds).advance d

lemma adjust_speed_of_mem (c : CarModeCalculator) (r1 r2 : Nat)
    (h1 : 5 ≤ c.current_speed) (h2 : c.current_speed ≤ 120)
    (h3 : 5 ≤ c.target_speed) (h4 : c.target_speed ≤ 120) :
    (adjust_vehicle_dynamics c r1 r2).current_speed
      = c.current_speed + (c.target_speed - c.current_speed) * (1/10) := by
  show rclamp (c.current_speed + (c.target_speed - c.current_speed) * (1/10)) 5 120 = _
  apply rclamp_eq_of_mem <;> linarith

lemma runDynamics_props : ∀ (rs : List (Nat × Nat)) (c : CarModeCalculator),
    5 ≤ c.current_speed → c.current_speed ≤ 120 →
    5 ≤ c.target_speed → c.target_speed ≤ 120 →
    5 ≤ (runDynamics c rs).current_speed ∧ (runDynamics c rs).current_speed ≤ 120
    ∧ |(runDynamics c rs).current_speed - c.target_speed|
        = (9/10 : ℚ) ^ rs.length * |c.current_speed - c.target_speed| := by
  intro rs
  induction rs with
  | nil =>
    intro c h1 h2 h3 h4
    exact ⟨h1, h2, by simp [runDynamics]⟩
  | cons r rs ih =>
    intro c h1 h2 h3 h4
    have heq : (adjust_vehicle_dynamics c r.1 r.2).current_speed
        = c.current_speed + (c.target_speed - c.current_speed) * (1/10) :=
      adjust_speed_of_mem c r.1 r.2 h1 h2 h3 h4
    have ht : (adjust_vehicle_dynamics c r.1 r.2).target_speed = c.target_speed := rfl
    have h1' : 5 ≤ (adjust_vehicle_dynamics c r.1 r.2).current_speed := by
      rw [heq]; linarith
    have h2' : (adjust_vehicle_dynamics c r.1 r.2).current_speed ≤ 120 := by
      rw [heq]; linarith
    have hrec := ih (adjust_vehicle_dynamics c r.1 r.2) h1' h2'
      (by rw [ht]; exact h3) (by rw [ht]; exact h4)
    have hrun : runDynamics c (r :: rs)
        = runDynamics (adjust_vehicle_dynamics c r.1 r.2) rs := rfl
    rw [hrun]
    refine ⟨hrec.1, hrec.2.1, ?_⟩
    have h3rd := hrec.2.2
    rw [ht, heq] at h3rd
    rw [h3rd]
    have habs : |c.current_speed + (c.target_speed - c.current_speed) * (1/10) - c.target_speed|
        = (9/10 : ℚ) * |c.current_speed - c.target_speed| := by
      rw [show c.current_speed + (c.target_speed - c.current_speed) * (1/10) - c.target_speed
            = (9/10 : ℚ) * (c.current_speed - c.target_speed) by ring, abs_mul,
          abs_of_pos (by norm_num : (0:ℚ) < 9/10)]
    rw [habs, List.length_cons, pow_succ]
    ring

/-- Claim C6: every dynamics update sets the speed to
`current + (target - current) * 0.1` clamped to [5,120]; within that range the
speed moves monotonically toward the (unchanged) target, shrinking the gap by
the factor 9/10 per step and by `(9/10)^n` over `n` repeated steps, and it
never leaves [5,120]. -/
theorem adjust_vehicle_dynamics_monotone_convergence :
    ∀ (c : CarModeCalculator) (r1 r2 : Nat),
      ((adjust_vehicle_dynamics c r1 r2).current_speed
         = rclamp (c.current_speed + (c.target_speed - c.current_speed) * (1/10)) 5 120)
      ∧ (5 ≤ (adjust_vehicle_dynamics c r1 r2).current_speed
         ∧ (adjust_vehicle_dynamics c r1 r2).current_speed ≤ 120)
      ∧ ((adjust_vehicle_dynamics c r1 r2).target_speed = c.target_speed)
      ∧ (5 ≤ c.current_speed → c.current_speed ≤ 120 →
         5 ≤ c.target_speed → c.target_speed ≤ 120 →
           ((c.current_speed ≤ c.target_speed →
               c.current_speed ≤ (adjust_vehicle_dynamics c r1 r2).current_speed
               ∧ (adjust_vehicle_dynamics c r1 r2).current_speed ≤ c.target_speed)
            ∧ (c.target_speed ≤ c.current_speed →
               c.target_speed ≤ (adjust_vehicle_dynamics c r1 r2).current_speed
               ∧ (adjust_vehicle_dynamics c r1 r2).current_speed ≤ c.current_speed)
            ∧ |(adjust_vehicle_dynamics c r1 r2).current_speed - c.target_speed|
                = (9/10 : ℚ) * |c.current_speed - c.target_speed|))
      ∧ (∀ rs : List (Nat × Nat),
           5 ≤ c.current_speed → c.current_speed ≤ 120 →
           5 ≤ c.target_speed → c.target_speed ≤ 120 →
             |(runDynamics c rs).current_speed - c.target_speed|
               = (9/10 : ℚ) ^ rs.length * |c.current_speed - c.target_speed|) := by
  intro c r1 r2
  have hform : (adjust_vehicle_dynamics c r1 r2).current_speed
      = rclamp (c.current_speed + (c.target_speed - c.current_speed) * (1/10)) 5 120 := rfl
  refine ⟨hform, ?_, rfl, ?_, ?_⟩
  · rw [hform]
    exact rclamp_mem _ 5 120 (by norm_num)
  · intro h1 h2 h3 h4
    have heq := adjust_speed_of_mem c r1 r2 h1 h2 h3 h4
    refine ⟨?_, ?_, ?_⟩
    · intro hle
      rw [heq]
      constructor <;> linarith
    · intro hge
      rw [heq]
      constructor <;> linarith
    · rw [heq, show c.current_speed + (c.target_speed - c.current_speed) * (1/10) - c.target_speed
            = (9/10 : ℚ) * (c.current_speed - c.target_speed) by ring, abs_mul,
          abs_of_pos (by norm_num : (0:ℚ) < 9/10)]
  · intro rs h1 h2 h3 h4
    exact (runDynamics_props rs c h1 h2 h3 h4).2.2

/-- Witness for Claim C6 at the initial arbiter state with target 70. -/
theorem adjust_vehicle_dynamics_monotone_convergence_witness :
    ({ CarModeCalculator.build with target_speed := 70 } : CarModeCalculator).current_speed
      ≤ (adjust_vehicle_dynamics { CarModeCalculator.build with target_speed := 70 } 0 0).current_speed
    ∧ (adjust_vehicle_dynamics { CarModeCalculator.build with target_speed := 70 } 0 0).current_speed
      ≤ ({ CarModeCalculator.build with target_speed := 70 } : CarModeCalculator).target_speed :=
  ((adjust_vehicle_dynamics_monotone_convergence
      { CarModeCalculator.build with target_speed := 70 } 0 0).2.2.2.1
    (by norm_num [CarModeCalculator.build]) (by norm_num [CarModeCalculator.build])
    (by norm_num [CarModeCalculator.build]) (by norm_num [CarModeCalculator.build])).1
    (by norm_num [CarModeCalculator.build])

lemma canChangeMode_iff_guardSpec (c : CarModeCalculator) (cand : DrivingMode) (now : ℚ) :
    canChangeMode c cand now = true ↔ guardSpec c cand now := by
  unfold canChangeMode guardSpec
  by_cases h : cand = DrivingMode.emergency
  · simp [h]
  · cases hl : c.last_mode_change_time with
    | none => simp [h, hl]
    | some last_change => simp [h, hl]

lemma step_char_pos (c : CarModeCalculator) (scene : Scene) (now : ℚ) (d : ArbiterDraws)
    (hb : (decide (candidateMode c scene ≠ c.current_mode)
            && canChangeMode c (candidateMode c scene) now) = true) :
    (CarModeCalculator.step c (some scene) now d).1.current_mode = candidateMode c scene
    ∧ (CarModeCalculator.step c (some scene) now d).1.last_mode_change_time = some now := by
  cases hcand : candidateMode c scene <;>
    · rw [hcand] at hb
      simp only [CarModeCalculator.step, hcand, hb, if_true, update_vehicle_behavior,
        adjust_vehicle_dynamics]
      constructor <;> split <;> rfl

lemma step_char_neg (c : CarModeCalculator) (scene : Scene) (now : ℚ) (d : ArbiterDraws)
    (hb : (decide (candidateMode c scene ≠ c.current_mode)
            && canChangeMode c (candidateMode c scene) now) = false) :
    (CarModeCalculator.step c (some scene) now d).1.current_mode = c.current_mode
    ∧ (CarModeCalculator.step c (some scene) now d).1.last_mode_change_time
        = c.last_mode_change_time := by
  simp only [CarModeCalculator.step, hb, Bool.false_eq_true, if_false,
    adjust_vehicle_dynamics]
  constructor <;> split <;> rfl

/-- Claim C2: in every `CarModeCalculator::step` with a scene, the candidate
replaces `current_mode` exactly when it differs from it and (it is Emergency,
or no change happened yet, or the cooldown — 15 s in the default state — has
elapsed); a successful transition stamps `last_mode_change_time` with the
current instant, a suppressed or absent transition leaves it unchanged. In
particular a Manual-to-Autonomous request 1 s after entering Manual is
rejected while an Emergency request at the same instant is accepted. -/
theorem carMode_transition_guard :
    (∀ (c : CarModeCalculator) (scene : Scene) (now : ℚ) (d : ArbiterDraws),
       ((CarModeCalculator.step c (some scene) now d).1.current_mode ≠ c.current_mode
          ↔ (candidateMode c scene ≠ c.current_mode
              ∧ guardSpec c (candidateMode c scene) now))
       ∧ ((CarModeCalculator.step c (some scene) now d).1.current_mode ≠ c.current_mode →
            (CarModeCalculator.step c (some scene) now d).1.current_mode
              = candidateMode c scene
            ∧ (CarModeCalculator.step c (some scene) now d).1.last_mode_change_time
              = some now)
       ∧ ((CarModeCalculator.step c (some scene) now d).1.current_mode = c.current_mode →
            (CarModeCalculator.step c (some scene) now d).1.last_mode_change_time
              = c.last_mode_change_time))
    ∧ ((CarModeCalculator.step
          { CarModeCalculator.build with last_mode_change_time := some 0 }
          (some ⟨0, 0, 40, 1, 1⟩) 1 ⟨0, 0, 0, 0, 0, 0⟩).1.current_mode
        = DrivingMode.manual)
    ∧ ((CarModeCalculator.step
          { CarModeCalculator.build with last_mode_change_time := some 0 }
          (some ⟨0, 0, 3, 1, 1⟩) 1 ⟨0, 0, 0, 0, 0, 0⟩).1.current_mode
        = DrivingMode.emergency) := by
  refine ⟨?_, ?_, ?_⟩
  · intro c scene now d
    refine ⟨?_, ?_, ?_⟩
    · cases hb : (decide (candidateMode c scene ≠ c.current_mode)
          && canChangeMode c (candidateMode c scene) now) with
      | true =>
        have hb' := hb
        rw [Bool.and_eq_true] at hb'
        obtain ⟨hne, hcc⟩ := hb'
        have hne' := of_decide_eq_true hne
        have hg := (canChangeMode_iff_guardSpec c _ now).mp hcc
        rw [(step_char_pos c scene now d hb).1]
        exact ⟨fun _ => ⟨hne', hg⟩, fun _ => hne'⟩
      | false =>
        rw [(step_char_neg c scene now d hb).1]
        constructor
        · intro h
          exact absurd rfl h
        · rintro ⟨hne, hg⟩
          have htrue : (decide (candidateMode c scene ≠ c.current_mode)
              && canChangeMode c (candidateMode c scene) now) = true := by
            rw [Bool.and_eq_true]
            exact ⟨decide_eq_true hne, (canChangeMode_iff_guardSpec c _ now).mpr hg⟩
          rw [hb] at htrue
          exact absurd htrue (by simp)
    · intro hne
      cases hb : (decide (candidateMode c scene ≠ c.current_mode)
          && canChangeMode c (candidateMode c scene) now) with
      | true => exact step_char_pos c scene now d hb
      | false =>
        rw [(step_char_neg c scene now d hb).1] at hne
        exact absurd rfl hne
    · intro hsame
      cases hb : (decide (candidateMode c scene ≠ c.current_mode)
          && canChangeMode c (candidateMode c scene) now) with
      | false => exact (step_char_neg c scene now d hb).2
      | true =>
        have hb' := hb
        rw [Bool.and_eq_true] at hb'
        rw [(step_char_pos c scene now d hb).1] at hsame
        exact absurd hsame (of_decide_eq_true hb'.1)
  · have hcand : candidateMode
        { CarModeCalculator.build with last_mode_change_time := some 0 }
        ⟨0, 0, 40, 1, 1⟩ = DrivingMode.autonomous := by
      simp [candidateMode, CarModeCalculator.build]
      norm_num
    have hb : (decide (candidateMode
          { CarModeCalculator.build with last_mode_change_time := some 0 }
          ⟨0, 0, 40, 1, 1⟩
            ≠ ({ CarModeCalculator.build with
                  last_mode_change_time := some 0 } : CarModeCalculator).current_mode)
        && canChangeMode { CarModeCalculator.build with last_mode_change_time := some 0 }
            (candidateMode { CarModeCalculator.build with last_mode_change_time := some 0 }
              ⟨0, 0, 40, 1, 1⟩) 1) = false := by
      rw [hcand]
      simp [canChangeMode, CarModeCalculator.build]
    exact (step_char_neg _ _ _ _ hb).1
  · have hcand : candidateMode
        { CarModeCalculator.build with last_mode_change_time := some 0 }
        ⟨0, 0, 3, 1, 1⟩ = DrivingMode.emergency := by
      simp [candidateMode, CarModeCalculator.build]
      norm_num
    have hb : (decide (candidateMode
          { CarModeCalculator.build with last_mode_change_time := some 0 }
          ⟨0, 0, 3, 1, 1⟩
            ≠ ({ CarModeCalculator.build with
                  last_mode_change_time := some 0 } : CarModeCalculator).current_mode)
        && canChangeMode { CarModeCalculator.build with last_mode_change_time := some 0 }
            (candidateMode { CarModeCalculator.build with last_mode_change_time := some 0 }
              ⟨0, 0, 3, 1, 1⟩) 1) = true := by
      rw [hcand]
      simp [canChangeMode, CarModeCalculator.build]
    rw [(step_char_pos _ _ _ _ hb).1, hcand]

/-- Witness for Claim C2: an Emergency candidate 1 s into the cooldown does
replace the Manual mode. -/
theorem carMode_transition_guard_witness :
    (CarModeCalculator.step { CarModeCalculator.build with last_mode_change_time := some 0 }
        (some ⟨0, 0, 3, 1, 1⟩) 1 ⟨0, 0, 0, 0, 0, 0⟩).1.current_mode
      ≠ DrivingMode.manual :=
  (carMode_transition_guard.1 { CarModeCalculator.build with last_mode_change_time := some 0 }
      ⟨0, 0, 3, 1, 1⟩ 1 ⟨0, 0, 0, 0, 0, 0⟩).1.mpr ⟨by decide, Or.inl (by decide)⟩

end MiniAdas
